import Mathlib

/-!
A shallow embedding of `thirtyfour/src/action_chain.rs`: the `ActionChain`
fluent builder for WebDriver input-action sequences, together with the parts
of its collaborators (`ActionSource`, `TypingData`, `Command`, the session
transport) that the builder relies on.  The collaborator types live outside
the file under verification; they are modelled from the specification and
each such definition says so in its doc comment.  Durations are in
milliseconds, represented as `Nat`.
-/

/-- Modelled from the spec: one atomic keyboard input event
(`KeyDown(char)`, `KeyUp(char)`, `Pause`). -/
inductive KeyAction where
  | keyDown (value : Char)
  | keyUp (value : Char)
  | pause
deriving DecidableEq, Repr

/-- Modelled from the spec: a mouse button; `left` is the primary button,
`right` the secondary button. -/
inductive MouseButton where
  | left
  | middle
  | right
deriving DecidableEq, Repr

/-- Modelled from the spec: the target of a pointer move — absolute
coordinates, an offset relative to the current pointer position, or an
element-center-with-offset position identified by an opaque element id. -/
inductive MoveTarget where
  | absolute (x y : Int)
  | offset (dx dy : Int)
  | element (id : String) (dx dy : Int)
deriving DecidableEq, Repr

/-- Modelled from the spec: one atomic pointer input event
(`PointerDown(button)`, `PointerUp(button)`, `PointerMove{target, duration}`,
`Pause`). -/
inductive PointerAction where
  | pointerDown (button : MouseButton)
  | pointerUp (button : MouseButton)
  | pointerMove (target : MoveTarget) (duration : Nat)
  | pause
deriving DecidableEq, Repr

/-- Modelled from the spec: the kind of pointer device; the builder only
ever constructs a mouse pointer. -/
inductive PointerActionType where
  | mouse
deriving DecidableEq, Repr

/-- Modelled from the spec: `ActionSource<KeyAction>` — an identified
keyboard device timeline with an inter-action delay and an ordered action
list. -/
structure ActionSourceKey where
  id : String
  delay : Nat
  actions : List KeyAction
deriving DecidableEq, Repr

/-- Modelled from the spec: `ActionSource<PointerAction>` — an identified
pointer device timeline with a pointer type, an inter-action delay and an
ordered action list. -/
structure ActionSourcePointer where
  id : String
  pointerType : PointerActionType
  delay : Nat
  actions : List PointerAction
deriving DecidableEq, Repr

/-- Modelled from the spec: constructor of a keyboard timeline; a `none`
key delay defaults to 0ms. -/
def ActionSourceKey.new (id : String) (delay : Option Nat) : ActionSourceKey :=
  { id := id, delay := delay.getD 0, actions := [] }

/-- Modelled from the spec: constructor of a pointer timeline; a `none`
pointer delay defaults to 250ms. -/
def ActionSourcePointer.new (id : String) (pointerType : PointerActionType)
    (delay : Option Nat) : ActionSourcePointer :=
  { id := id, pointerType := pointerType, delay := delay.getD 250, actions := [] }

/-- Modelled from the spec: append a keyboard no-op pause. -/
def ActionSourceKey.pause (s : ActionSourceKey) : ActionSourceKey :=
  { s with actions := s.actions ++ [KeyAction.pause] }

/-- Modelled from the spec: append a key press. -/
def ActionSourceKey.key_down (s : ActionSourceKey) (value : Char) : ActionSourceKey :=
  { s with actions := s.actions ++ [KeyAction.keyDown value] }

/-- Modelled from the spec: append a key release. -/
def ActionSourceKey.key_up (s : ActionSourceKey) (value : Char) : ActionSourceKey :=
  { s with actions := s.actions ++ [KeyAction.keyUp value] }

/-- Modelled from the spec: append a pointer no-op pause. -/
def ActionSourcePointer.pause (s : ActionSourcePointer) : ActionSourcePointer :=
  { s with actions := s.actions ++ [PointerAction.pause] }

/-- Modelled from the spec: press the primary button (1 action). -/
def ActionSourcePointer.click_and_hold (s : ActionSourcePointer) : ActionSourcePointer :=
  { s with actions := s.actions ++ [PointerAction.pointerDown MouseButton.left] }

/-- Modelled from the spec: release the primary button (1 action). -/
def ActionSourcePointer.release (s : ActionSourcePointer) : ActionSourcePointer :=
  { s with actions := s.actions ++ [PointerAction.pointerUp MouseButton.left] }

/-- Modelled from the spec: press and release the primary button
(2 actions). -/
def ActionSourcePointer.click (s : ActionSourcePointer) : ActionSourcePointer :=
  { s with
    actions := s.actions ++
      [PointerAction.pointerDown MouseButton.left, PointerAction.pointerUp MouseButton.left] }

/-- Modelled from the spec: press and release the secondary button
(2 actions). -/
def ActionSourcePointer.context_click (s : ActionSourcePointer) : ActionSourcePointer :=
  { s with
    actions := s.actions ++
      [PointerAction.pointerDown MouseButton.right, PointerAction.pointerUp MouseButton.right] }

/-- Modelled from the spec: two press-and-release pairs of the primary
button (4 actions). -/
def ActionSourcePointer.double_click (s : ActionSourcePointer) : ActionSourcePointer :=
  s.click.click

/-- Modelled from the spec: absolute pointer move, with a duration derived
from the configured pointer delay (1 action). -/
def ActionSourcePointer.move_to (s : ActionSourcePointer) (x y : Int) : ActionSourcePointer :=
  { s with actions := s.actions ++ [PointerAction.pointerMove (MoveTarget.absolute x y) s.delay] }

/-- Modelled from the spec: pointer move relative to the current pointer
position (1 action). -/
def ActionSourcePointer.move_by (s : ActionSourcePointer) (dx dy : Int) : ActionSourcePointer :=
  { s with actions := s.actions ++ [PointerAction.pointerMove (MoveTarget.offset dx dy) s.delay] }

/-- Modelled from the spec: pointer move to the center of the element with
the given opaque id (1 action). -/
def ActionSourcePointer.move_to_element_center (s : ActionSourcePointer)
    (elementId : String) : ActionSourcePointer :=
  { s with
    actions := s.actions ++ [PointerAction.pointerMove (MoveTarget.element elementId 0 0) s.delay] }

/-- Modelled from the spec: pointer move to an element-relative offset
(1 action). -/
def ActionSourcePointer.move_to_element (s : ActionSourcePointer)
    (elementId : String) (dx dy : Int) : ActionSourcePointer :=
  { s with
    actions := s.actions ++
      [PointerAction.pointerMove (MoveTarget.element elementId dx dy) s.delay] }

/-- An element reference: the builder only forwards the opaque server-side
element id. -/
structure WebElement where
  element_id : String
deriving DecidableEq, Repr

/-- Modelled from the spec: `TypingData` decomposes a text into its
sequence of Unicode code points, one entry per character, no grapheme
clustering. -/
def TypingData.as_vec (text : String) : List Char :=
  text.data

/-- The `ActionChain` builder state: one keyboard timeline and one pointer
timeline.  The session handle is an external collaborator; it is passed to
the terminal operations explicitly instead of being stored. -/
structure ActionChain where
  key_actions : ActionSourceKey
  pointer_actions : ActionSourcePointer
deriving DecidableEq, Repr

/-- `ActionChain::new`: empty keyboard timeline (id "key", no delay given)
and empty mouse pointer timeline (id "pointer", no delay given). -/
def ActionChain.new : ActionChain :=
  { key_actions := ActionSourceKey.new "key" none,
    pointer_actions := ActionSourcePointer.new "pointer" PointerActionType.mouse none }

/-- `ActionChain::new_with_delay`: caller-supplied per-device inter-action
delays. -/
def ActionChain.new_with_delay (key_delay pointer_delay : Option Nat) : ActionChain :=
  { key_actions := ActionSourceKey.new "key" key_delay,
    pointer_actions := ActionSourcePointer.new "pointer" PointerActionType.mouse pointer_delay }

/-- `ActionChain::click`: pointer click, then two keyboard pauses. -/
def ActionChain.click (c : ActionChain) : ActionChain :=
  { c with
    pointer_actions := c.pointer_actions.click,
    key_actions := c.key_actions.pause.pause }

/-- `ActionChain::click_and_hold`: pointer press, then one keyboard pause. -/
def ActionChain.click_and_hold (c : ActionChain) : ActionChain :=
  { c with
    pointer_actions := c.pointer_actions.click_and_hold,
    key_actions := c.key_actions.pause }

/-- `ActionChain::context_click`: pointer context click, then two keyboard
pauses. -/
def ActionChain.context_click (c : ActionChain) : ActionChain :=
  { c with
    pointer_actions := c.pointer_actions.context_click,
    key_actions := c.key_actions.pause.pause }

/-- `ActionChain::double_click`: pointer double click, then four keyboard
pauses (the source loop `for _ in 0..4` unrolled). -/
def ActionChain.double_click (c : ActionChain) : ActionChain :=
  { c with
    pointer_actions := c.pointer_actions.double_click,
    key_actions := c.key_actions.pause.pause.pause.pause }

/-- `ActionChain::key_down`: one keyboard press, one pointer pause. -/
def ActionChain.key_down (c : ActionChain) (value : Char) : ActionChain :=
  { c with
    key_actions := c.key_actions.key_down value,
    pointer_actions := c.pointer_actions.pause }

/-- `ActionChain::key_up`: one keyboard release, one pointer pause. -/
def ActionChain.key_up (c : ActionChain) (value : Char) : ActionChain :=
  { c with
    key_actions := c.key_actions.key_up value,
    pointer_actions := c.pointer_actions.pause }

/-- `ActionChain::move_to`: one absolute pointer move, one keyboard pause. -/
def ActionChain.move_to (c : ActionChain) (x y : Int) : ActionChain :=
  { c with
    pointer_actions := c.pointer_actions.move_to x y,
    key_actions := c.key_actions.pause }

/-- `ActionChain::move_by_offset`: one relative pointer move, one keyboard
pause. -/
def ActionChain.move_by_offset (c : ActionChain) (dx dy : Int) : ActionChain :=
  { c with
    pointer_actions := c.pointer_actions.move_by dx dy,
    key_actions := c.key_actions.pause }

/-- `ActionChain::move_to_element_center`: one pointer move to the element
center, one keyboard pause. -/
def ActionChain.move_to_element_center (c : ActionChain) (element : WebElement) : ActionChain :=
  { c with
    pointer_actions := c.pointer_actions.move_to_element_center element.element_id,
    key_actions := c.key_actions.pause }

/-- `ActionChain::move_to_element_with_offset`: one pointer move to an
element-relative offset, one keyboard pause. -/
def ActionChain.move_to_element_with_offset (c : ActionChain) (element : WebElement)
    (dx dy : Int) : ActionChain :=
  { c with
    pointer_actions := c.pointer_actions.move_to_element element.element_id dx dy,
    key_actions := c.key_actions.pause }

/-- `ActionChain::release`: one pointer release, one keyboard pause. -/
def ActionChain.release (c : ActionChain) : ActionChain :=
  { c with
    pointer_actions := c.pointer_actions.release,
    key_actions := c.key_actions.pause }

/-- `ActionChain::send_keys`: for each code point of the text, a key press
followed by a key release. -/
def ActionChain.send_keys (c : ActionChain) (text : String) : ActionChain :=
  List.foldl (fun ch x => (ch.key_down x).key_up x) c (TypingData.as_vec text)

/-- `ActionChain::click_element`. -/
def ActionChain.click_element (c : ActionChain) (element : WebElement) : ActionChain :=
  (c.move_to_element_center element).click

/-- `ActionChain::click_and_hold_element`. -/
def ActionChain.click_and_hold_element (c : ActionChain) (element : WebElement) : ActionChain :=
  (c.move_to_element_center element).click_and_hold

/-- `ActionChain::context_click_element`. -/
def ActionChain.context_click_element (c : ActionChain) (element : WebElement) : ActionChain :=
  (c.move_to_element_center element).context_click

/-- `ActionChain::double_click_element`. -/
def ActionChain.double_click_element (c : ActionChain) (element : WebElement) : ActionChain :=
  (c.move_to_element_center element).double_click

/-- `ActionChain::release_on_element`. -/
def ActionChain.release_on_element (c : ActionChain) (element : WebElement) : ActionChain :=
  (c.move_to_element_center element).release

/-- `ActionChain::drag_and_drop_element`. -/
def ActionChain.drag_and_drop_element (c : ActionChain)
    (source target : WebElement) : ActionChain :=
  (c.click_and_hold_element source).release_on_element target

/-- `ActionChain::drag_and_drop_by_offset`. -/
def ActionChain.drag_and_drop_by_offset (c : ActionChain) (dx dy : Int) : ActionChain :=
  (c.click_and_hold).move_by_offset dx dy

/-- `ActionChain::drag_and_drop_element_by_offset`. -/
def ActionChain.drag_and_drop_element_by_offset (c : ActionChain) (element : WebElement)
    (dx dy : Int) : ActionChain :=
  (c.click_and_hold_element element).move_by_offset dx dy

/-- `ActionChain::key_down_on_element`. -/
def ActionChain.key_down_on_element (c : ActionChain) (element : WebElement)
    (value : Char) : ActionChain :=
  (c.click_element element).key_down value

/-- `ActionChain::key_up_on_element`. -/
def ActionChain.key_up_on_element (c : ActionChain) (element : WebElement)
    (value : Char) : ActionChain :=
  (c.click_element element).key_up value

/-- `ActionChain::send_keys_to_element`. -/
def ActionChain.send_keys_to_element (c : ActionChain) (element : WebElement)
    (text : String) : ActionChain :=
  (c.click_element element).send_keys text

/-- Modelled from the spec: one wire-format action entry of the "perform
actions" payload. -/
inductive WireAction where
  | keyDown (value : Char)
  | keyUp (value : Char)
  | pointerDown (button : MouseButton)
  | pointerUp (button : MouseButton)
  | pointerMove (target : MoveTarget) (duration : Nat)
  | pause
deriving DecidableEq, Repr

/-- Modelled from the spec: wire form of a keyboard action. -/
def KeyAction.serialize : KeyAction → WireAction
  | KeyAction.keyDown c => WireAction.keyDown c
  | KeyAction.keyUp c => WireAction.keyUp c
  | KeyAction.pause => WireAction.pause

/-- Modelled from the spec: wire form of a pointer action. -/
def PointerAction.serialize : PointerAction → WireAction
  | PointerAction.pointerDown b => WireAction.pointerDown b
  | PointerAction.pointerUp b => WireAction.pointerUp b
  | PointerAction.pointerMove t d => WireAction.pointerMove t d
  | PointerAction.pause => WireAction.pause

/-- Modelled from the spec: the wire name of a pointer type. -/
def PointerActionType.wireName : PointerActionType → String
  | PointerActionType.mouse => "mouse"

/-- Modelled from the spec: one device-action-sequence descriptor of the
"perform actions" payload — a device type, a device id, the pointer type
parameter for pointer devices, and the ordered action list. -/
structure DeviceDescriptor where
  type : String
  id : String
  pointerType : Option String
  actions : List WireAction
deriving DecidableEq, Repr

/-- Modelled from the spec: serialization of the builder used by
`perform` — an ordered list of exactly two device descriptors, keyboard
first, pointer second. -/
def ActionChain.serialize (c : ActionChain) : List DeviceDescriptor :=
  [ { type := "key", id := c.key_actions.id, pointerType := none,
      actions := c.key_actions.actions.map KeyAction.serialize },
    { type := "pointer", id := c.pointer_actions.id,
      pointerType := some c.pointer_actions.pointerType.wireName,
      actions := c.pointer_actions.actions.map PointerAction.serialize } ]

/-- Modelled from the spec: the two transport commands this module issues. -/
inductive Command where
  | performActions (payload : List DeviceDescriptor)
  | releaseActions
deriving DecidableEq, Repr

/-- Modelled from the spec: the transport error taxonomy — connection or
transport failure, malformed server response, remote protocol error code. -/
inductive WebDriverError where
  | transport (msg : String)
  | malformedResponse (msg : String)
  | remoteProtocol (code : String)
deriving DecidableEq, Repr

/-- Modelled from the spec: the session transport collaborator, as the
response it gives to each command. -/
structure Transport where
  respond : Command → Except WebDriverError String

/-- Modelled from the spec: `SessionHandle::cmd` sends one command through
the transport; the trace records every command sent, in order. -/
def SessionHandle.cmd (t : Transport) (trace : List Command) (c : Command) :
    Except WebDriverError String × List Command :=
  (t.respond c, trace ++ [c])

/-- `ActionChain::perform`: serialize both timelines into one request, send
it, propagate any transport failure; the builder is borrowed immutably and
returned as the first component. -/
def ActionChain.perform (c : ActionChain) (t : Transport) (trace : List Command) :
    ActionChain × Except WebDriverError Unit × List Command :=
  let r := SessionHandle.cmd t trace (Command.performActions c.serialize)
  match r.1 with
  | Except.error e => (c, Except.error e, r.2)
  | Except.ok _ => (c, Except.ok (), r.2)

/-- `ActionChain::reset_actions`: send the release-actions command,
propagate any transport failure; the builder is borrowed immutably and
returned as the first component. -/
def ActionChain.reset_actions (c : ActionChain) (t : Transport) (trace : List Command) :
    ActionChain × Except WebDriverError Unit × List Command :=
  let r := SessionHandle.cmd t trace Command.releaseActions
  match r.1 with
  | Except.error e => (c, Except.error e, r.2)
  | Except.ok _ => (c, Except.ok (), r.2)

/-- One chainable mutating call of the builder, covering every primitive
and every composite convenience. -/
inductive ChainOp where
  | click
  | click_and_hold
  | context_click
  | double_click
  | key_down (value : Char)
  | key_up (value : Char)
  | move_to (x y : Int)
  | move_by_offset (dx dy : Int)
  | move_to_element_center (element : WebElement)
  | move_to_element_with_offset (element : WebElement) (dx dy : Int)
  | release
  | send_keys (text : String)
  | click_element (element : WebElement)
  | click_and_hold_element (element : WebElement)
  | context_click_element (element : WebElement)
  | double_click_element (element : WebElement)
  | release_on_element (element : WebElement)
  | drag_and_drop_element (source target : WebElement)
  | drag_and_drop_by_offset (dx dy : Int)
  | drag_and_drop_element_by_offset (element : WebElement) (dx dy : Int)
  | key_down_on_element (element : WebElement) (value : Char)
  | key_up_on_element (element : WebElement) (value : Char)
  | send_keys_to_element (element : WebElement) (text : String)

/-- Apply one chainable call to the builder. -/
def ActionChain.applyOp (c : ActionChain) : ChainOp → ActionChain
  | ChainOp.click => c.click
  | ChainOp.click_and_hold => c.click_and_hold
  | ChainOp.context_click => c.context_click
  | ChainOp.double_click => c.double_click
  | ChainOp.key_down v => c.key_down v
  | ChainOp.key_up v => c.key_up v
  | ChainOp.move_to x y => c.move_to x y
  | ChainOp.move_by_offset dx dy => c.move_by_offset dx dy
  | ChainOp.move_to_element_center e => c.move_to_element_center e
  | ChainOp.move_to_element_with_offset e dx dy => c.move_to_element_with_offset e dx dy
  | ChainOp.release => c.release
  | ChainOp.send_keys s => c.send_keys s
  | ChainOp.click_element e => c.click_element e
  | ChainOp.click_and_hold_element e => c.click_and_hold_element e
  | ChainOp.context_click_element e => c.context_click_element e
  | ChainOp.double_click_element e => c.double_click_element e
  | ChainOp.release_on_element e => c.release_on_element e
  | ChainOp.drag_and_drop_element s tg => c.drag_and_drop_element s tg
  | ChainOp.drag_and_drop_by_offset dx dy => c.drag_and_drop_by_offset dx dy
  | ChainOp.drag_and_drop_element_by_offset e dx dy => c.drag_and_drop_element_by_offset e dx dy
  | ChainOp.key_down_on_element e v => c.key_down_on_element e v
  | ChainOp.key_up_on_element e v => c.key_up_on_element e v
  | ChainOp.send_keys_to_element e s => c.send_keys_to_element e s

/-- Apply a sequence of chainable calls to the builder, in order. -/
def ActionChain.applyAll (c : ActionChain) (ops : List ChainOp) : ActionChain :=
  List.foldl ActionChain.applyOp c ops

/-- Number of actions in the keyboard timeline. -/
def ActionChain.keyLen (c : ActionChain) : Nat :=
  c.key_actions.actions.length

/-- Number of actions in the pointer timeline. -/
def ActionChain.ptrLen (c : ActionChain) : Nat :=
  c.pointer_actions.actions.length

/-- Tests whether a pointer action is a button release. -/
def PointerAction.isUp : PointerAction → Bool
  | PointerAction.pointerUp _ => true
  | _ => false

/-- The keyboard actions produced by typing a character sequence: one press
and one release per character, in order. -/
def typingActions : List Char → List KeyAction
  | [] => []
  | x :: xs => KeyAction.keyDown x :: KeyAction.keyUp x :: typingActions xs

@[simp]
theorem keyLen_key_down (c : ActionChain) (x : Char) : (c.key_down x).keyLen = c.keyLen + 1 := by
  simp [ActionChain.key_down, ActionSourceKey.key_down, ActionChain.keyLen]

@[simp]
theorem ptrLen_key_down (c : ActionChain) (x : Char) : (c.key_down x).ptrLen = c.ptrLen + 1 := by
  simp [ActionChain.key_down, ActionSourcePointer.pause, ActionChain.ptrLen]

@[simp]
theorem keyLen_key_up (c : ActionChain) (x : Char) : (c.key_up x).keyLen = c.keyLen + 1 := by
  simp [ActionChain.key_up, ActionSourceKey.key_up, ActionChain.keyLen]

@[simp]
theorem ptrLen_key_up (c : ActionChain) (x : Char) : (c.key_up x).ptrLen = c.ptrLen + 1 := by
  simp [ActionChain.key_up, ActionSourcePointer.pause, ActionChain.ptrLen]

@[simp]
theorem keyLen_click (c : ActionChain) : c.click.keyLen = c.keyLen + 2 := by
  simp [ActionChain.click, ActionSourceKey.pause, ActionChain.keyLen]

@[simp]
theorem ptrLen_click (c : ActionChain) : c.click.ptrLen = c.ptrLen + 2 := by
  simp [ActionChain.click, ActionSourcePointer.click, ActionChain.ptrLen]

@[simp]
theorem keyLen_click_and_hold (c : ActionChain) : c.click_and_hold.keyLen = c.keyLen + 1 := by
  simp [ActionChain.click_and_hold, ActionSourceKey.pause, ActionChain.keyLen]

@[simp]
theorem ptrLen_click_and_hold (c : ActionChain) : c.click_and_hold.ptrLen = c.ptrLen + 1 := by
  simp [ActionChain.click_and_hold, ActionSourcePointer.click_and_hold, ActionChain.ptrLen]

@[simp]
theorem keyLen_context_click (c : ActionChain) : c.context_click.keyLen = c.keyLen + 2 := by
  simp [ActionChain.context_click, ActionSourceKey.pause, ActionChain.keyLen]

@[simp]
theorem ptrLen_context_click (c : ActionChain) : c.context_click.ptrLen = c.ptrLen + 2 := by
  simp [ActionChain.context_click, ActionSourcePointer.context_click, ActionChain.ptrLen]

@[simp]
theorem keyLen_double_click (c : ActionChain) : c.double_click.keyLen = c.keyLen + 4 := by
  simp [ActionChain.double_click, ActionSourceKey.pause, ActionChain.keyLen]

@[simp]
theorem ptrLen_double_click (c : ActionChain) : c.double_click.ptrLen = c.ptrLen + 4 := by
  simp [ActionChain.double_click, ActionSourcePointer.double_click, ActionSourcePointer.click,
    ActionChain.ptrLen]

@[simp]
theorem keyLen_move_to (c : ActionChain) (x y : Int) : (c.move_to x y).keyLen = c.keyLen + 1 := by
  simp [ActionChain.move_to, ActionSourceKey.pause, ActionChain.keyLen]

@[simp]
theorem ptrLen_move_to (c : ActionChain) (x y : Int) : (c.move_to x y).ptrLen = c.ptrLen + 1 := by
  simp [ActionChain.move_to, ActionSourcePointer.move_to, ActionChain.ptrLen]

@[simp]
theorem keyLen_move_by_offset (c : ActionChain) (dx dy : Int) :
    (c.move_by_offset dx dy).keyLen = c.keyLen + 1 := by
  simp [ActionChain.move_by_offset, ActionSourceKey.pause, ActionChain.keyLen]

@[simp]
theorem ptrLen_move_by_offset (c : ActionChain) (dx dy : Int) :
    (c.move_by_offset dx dy).ptrLen = c.ptrLen + 1 := by
  simp [ActionChain.move_by_offset, ActionSourcePointer.move_by, ActionChain.ptrLen]

@[simp]
theorem keyLen_move_to_element_center (c : ActionChain) (e : WebElement) :
    (c.move_to_element_center e).keyLen = c.keyLen + 1 := by
  simp [ActionChain.move_to_element_center, ActionSourceKey.pause, ActionChain.keyLen]

@[simp]
theorem ptrLen_move_to_element_center (c : ActionChain) (e : WebElement) :
    (c.move_to_element_center e).ptrLen = c.ptrLen + 1 := by
  simp [ActionChain.move_to_element_center, ActionSourcePointer.move_to_element_center,
    ActionChain.ptrLen]

@[simp]
theorem keyLen_move_to_element_with_offset (c : ActionChain) (e : WebElement) (dx dy : Int) :
    (c.move_to_element_with_offset e dx dy).keyLen = c.keyLen + 1 := by
  simp [ActionChain.move_to_element_with_offset, ActionSourceKey.pause, ActionChain.keyLen]

@[simp]
theorem ptrLen_move_to_element_with_offset (c : ActionChain) (e : WebElement) (dx dy : Int) :
    (c.move_to_element_with_offset e dx dy).ptrLen = c.ptrLen + 1 := by
  simp [ActionChain.move_to_element_with_offset, ActionSourcePointer.move_to_element,
    ActionChain.ptrLen]

@[simp]
theorem keyLen_release (c : ActionChain) : c.release.keyLen = c.keyLen + 1 := by
  simp [ActionChain.release, ActionSourceKey.pause, ActionChain.keyLen]

@[simp]
theorem ptrLen_release (c : ActionChain) : c.release.ptrLen = c.ptrLen + 1 := by
  simp [ActionChain.release, ActionSourcePointer.release, ActionChain.ptrLen]

theorem sendKeysFold_len (cs : List Char) (c : ActionChain) :
    (List.foldl (fun ch x => (ch.key_down x).key_up x) c cs).keyLen = c.keyLen + 2 * cs.length ∧
    (List.foldl (fun ch x => (ch.key_down x).key_up x) c cs).ptrLen = c.ptrLen + 2 * cs.length := by
  induction cs generalizing c with
  | nil => simp
  | cons x xs ih =>
    have h := ih ((c.key_down x).key_up x)
    simp only [List.foldl_cons, List.length_cons] at h ⊢
    simp only [keyLen_key_down, keyLen_key_up, ptrLen_key_down, ptrLen_key_up] at h
    omega

@[simp]
theorem keyLen_send_keys (c : ActionChain) (s : String) :
    (c.send_keys s).keyLen = c.keyLen + 2 * s.data.length := by
  exact (sendKeysFold_len s.data c).1

@[simp]
theorem ptrLen_send_keys (c : ActionChain) (s : String) :
    (c.send_keys s).ptrLen = c.ptrLen + 2 * s.data.length := by
  exact (sendKeysFold_len s.data c).2

theorem applyOp_preserves_balance (op : ChainOp) (c : ActionChain)
    (h : c.keyLen = c.ptrLen) : (c.applyOp op).keyLen = (c.applyOp op).ptrLen := by
  cases op <;>
    simp [ActionChain.applyOp, ActionChain.click_element, ActionChain.click_and_hold_element,
      ActionChain.context_click_element, ActionChain.double_click_element,
      ActionChain.release_on_element, ActionChain.drag_and_drop_element,
      ActionChain.drag_and_drop_by_offset, ActionChain.drag_and_drop_element_by_offset,
      ActionChain.key_down_on_element, ActionChain.key_up_on_element,
      ActionChain.send_keys_to_element] <;>
    omega

theorem applyAll_preserves_balance (ops : List ChainOp) (c : ActionChain)
    (h : c.keyLen = c.ptrLen) : (c.applyAll ops).keyLen = (c.applyAll ops).ptrLen := by
  induction ops generalizing c with
  | nil => simpa [ActionChain.applyAll] using h
  | cons op ops ih =>
    have h1 : c.applyAll (op :: ops) = (c.applyOp op).applyAll ops := by
      simp [ActionChain.applyAll]
    rw [h1]
    exact ih _ (applyOp_preserves_balance op c h)

theorem sendKeysFold_actions (cs : List Char) (c : ActionChain) :
    (List.foldl (fun ch x => (ch.key_down x).key_up x) c cs).key_actions.actions =
      c.key_actions.actions ++ typingActions cs ∧
    (List.foldl (fun ch x => (ch.key_down x).key_up x) c cs).pointer_actions.actions =
      c.pointer_actions.actions ++ List.replicate (2 * cs.length) PointerAction.pause := by
  induction cs generalizing c with
  | nil => simp [typingActions]
  | cons x xs ih =>
    have h := ih ((c.key_down x).key_up x)
    simp only [List.foldl_cons] at h ⊢
    obtain ⟨h1, h2⟩ := h
    constructor
    · rw [h1]
      simp [ActionChain.key_down, ActionChain.key_up, ActionSourceKey.key_down,
        ActionSourceKey.key_up, typingActions]
    · rw [h2]
      have hn : 2 * (x :: xs).length = 2 + 2 * xs.length := by
        simp only [List.length_cons]
        omega
      rw [hn, List.replicate_add]
      have hr : List.replicate 2 PointerAction.pause =
          [PointerAction.pause, PointerAction.pause] := rfl
      rw [hr]
      simp [ActionChain.key_down, ActionChain.key_up, ActionSourcePointer.pause]

theorem perform_trace (c : ActionChain) (t : Transport) (trace : List Command) :
    (c.perform t trace).2.2 = trace ++ [Command.performActions c.serialize] := by
  cases h : t.respond (Command.performActions c.serialize) <;>
    simp [ActionChain.perform, SessionHandle.cmd, h]

theorem reset_trace (c : ActionChain) (t : Transport) (trace : List Command) :
    (c.reset_actions t trace).2.2 = trace ++ [Command.releaseActions] := by
  cases h : t.respond Command.releaseActions <;>
    simp [ActionChain.reset_actions, SessionHandle.cmd, h]

/-- C1: every sequence of chainable mutating calls applied to a builder
created by `new` or `new_with_delay` leaves the keyboard timeline and the
pointer timeline with the same number of actions, at every point and hence
immediately before serialization by `perform`. -/
theorem c1_timelines_equal_length (kd pd : Option Nat) (ops : List ChainOp) :
    (ActionChain.new.applyAll ops).keyLen = (ActionChain.new.applyAll ops).ptrLen ∧
    ((ActionChain.new_with_delay kd pd).applyAll ops).keyLen =
      ((ActionChain.new_with_delay kd pd).applyAll ops).ptrLen :=
  ⟨applyAll_preserves_balance ops _ rfl, applyAll_preserves_balance ops _ rfl⟩

/-- C2: `click` appends exactly a press and a release of the primary button
to the pointer timeline and exactly two pauses to the keyboard timeline,
and changes nothing else in the builder. -/
theorem c2_click_appends_down_up_and_two_pauses (c : ActionChain) :
    c.click.pointer_actions.actions =
      c.pointer_actions.actions ++
        [PointerAction.pointerDown MouseButton.left, PointerAction.pointerUp MouseButton.left] ∧
    c.click.key_actions.actions = c.key_actions.actions ++ [KeyAction.pause, KeyAction.pause] ∧
    c.click.key_actions.id = c.key_actions.id ∧
    c.click.key_actions.delay = c.key_actions.delay ∧
    c.click.pointer_actions.id = c.pointer_actions.id ∧
    c.click.pointer_actions.pointerType = c.pointer_actions.pointerType ∧
    c.click.pointer_actions.delay = c.pointer_actions.delay := by
  simp [ActionChain.click, ActionSourcePointer.click, ActionSourceKey.pause]

/-- C3: `double_click` appends exactly two press-and-release pairs of the
primary button (4 actions) to the pointer timeline and exactly four pauses
to the keyboard timeline. -/
theorem c3_double_click_appends_four_and_four (c : ActionChain) :
    c.double_click.pointer_actions.actions =
      c.pointer_actions.actions ++
        [PointerAction.pointerDown MouseButton.left, PointerAction.pointerUp MouseButton.left,
         PointerAction.pointerDown MouseButton.left, PointerAction.pointerUp MouseButton.left] ∧
    c.double_click.key_actions.actions =
      c.key_actions.actions ++
        [KeyAction.pause, KeyAction.pause, KeyAction.pause, KeyAction.pause] := by
  simp [ActionChain.double_click, ActionSourcePointer.double_click, ActionSourcePointer.click,
    ActionSourceKey.pause]

/-- C4: `send_keys` is exactly the chaining of `key_down` then `key_up` per
code point of the text in order; in particular on "ab" it equals
`key_down a, key_up a, key_down b, key_up b`, the keyboard timeline gains
the press-release pairs in order, and the pointer timeline gains exactly
two pauses per character. -/
theorem c4_send_keys_is_key_down_key_up_per_char :
    (∀ c : ActionChain,
      c.send_keys "ab" = (((c.key_down 'a').key_up 'a').key_down 'b').key_up 'b') ∧
    (∀ (c : ActionChain) (text : String),
      c.send_keys text = List.foldl (fun ch x => (ch.key_down x).key_up x) c text.data) ∧
    (∀ (c : ActionChain) (text : String),
      (c.send_keys text).key_actions.actions =
        c.key_actions.actions ++ typingActions text.data) ∧
    (∀ (c : ActionChain) (text : String),
      (c.send_keys text).pointer_actions.actions =
        c.pointer_actions.actions ++ List.replicate (2 * text.data.length) PointerAction.pause) :=
  ⟨fun _ => rfl, fun _ _ => rfl,
   fun c text => (sendKeysFold_actions text.data c).1,
   fun c text => (sendKeysFold_actions text.data c).2⟩

/-- C5: `new` yields key delay 0ms and pointer delay 250ms; `new_with_delay`
maps a `none` key delay to 0ms and a `none` pointer delay to 250ms, and an
explicit delay for either device overrides its default independently of the
other. -/
theorem c5_delay_defaults_and_overrides (k p : Nat) (okd opd : Option Nat) :
    ActionChain.new.key_actions.delay = 0 ∧
    ActionChain.new.pointer_actions.delay = 250 ∧
    (ActionChain.new_with_delay none none).key_actions.delay = 0 ∧
    (ActionChain.new_with_delay none none).pointer_actions.delay = 250 ∧
    (ActionChain.new_with_delay okd opd).key_actions.delay = okd.getD 0 ∧
    (ActionChain.new_with_delay okd opd).pointer_actions.delay = opd.getD 250 ∧
    (ActionChain.new_with_delay (some k) opd).key_actions.delay = k ∧
    (ActionChain.new_with_delay okd (some p)).pointer_actions.delay = p := by
  simp [ActionChain.new, ActionChain.new_with_delay, ActionSourceKey.new,
    ActionSourcePointer.new]

/-- C6: a builder with no mutating calls serializes to an ordered list of
exactly two device descriptors — keyboard (type "key", id "key") first and
pointer (type "pointer", id "pointer", pointerType "mouse") second — each
with an empty action list, and `perform` sends exactly that payload. -/
theorem c6_fresh_builder_serializes_two_empty_descriptors (t : Transport)
    (trace : List Command) :
    ActionChain.new.serialize =
      [ { type := "key", id := "key", pointerType := none, actions := [] },
        { type := "pointer", id := "pointer", pointerType := some "mouse", actions := [] } ] ∧
    (ActionChain.new.perform t trace).2.2 =
      trace ++ [Command.performActions
        [ { type := "key", id := "key", pointerType := none, actions := [] },
          { type := "pointer", id := "pointer", pointerType := some "mouse",
            actions := [] } ]] := by
  refine ⟨rfl, ?_⟩
  rw [perform_trace]
  rfl

/-- C7: every transport failure during `perform` or `reset_actions` is
returned unchanged, success is returned exactly when the transport command
succeeds, and each operation sends exactly one command (no retries). -/
theorem c7_failures_surface_unchanged (t : Transport) (c : ActionChain) (trace : List Command) :
    (∀ e, (c.perform t trace).2.1 = Except.error e ↔
      t.respond (Command.performActions c.serialize) = Except.error e) ∧
    ((c.perform t trace).2.1 = Except.ok () ↔
      ∃ s, t.respond (Command.performActions c.serialize) = Except.ok s) ∧
    (∀ e, (c.reset_actions t trace).2.1 = Except.error e ↔
      t.respond Command.releaseActions = Except.error e) ∧
    ((c.reset_actions t trace).2.1 = Except.ok () ↔
      ∃ s, t.respond Command.releaseActions = Except.ok s) ∧
    (c.perform t trace).2.2 = trace ++ [Command.performActions c.serialize] ∧
    (c.reset_actions t trace).2.2 = trace ++ [Command.releaseActions] := by
  refine ⟨?_, ?_, ?_, ?_, perform_trace c t trace, reset_trace c t trace⟩
  · intro e
    cases h : t.respond (Command.performActions c.serialize) <;>
      simp [ActionChain.perform, SessionHandle.cmd, h]
  · cases h : t.respond (Command.performActions c.serialize) <;>
      simp [ActionChain.perform, SessionHandle.cmd, h]
  · intro e
    cases h : t.respond Command.releaseActions <;>
      simp [ActionChain.reset_actions, SessionHandle.cmd, h]
  · cases h : t.respond Command.releaseActions <;>
      simp [ActionChain.reset_actions, SessionHandle.cmd, h]

/-- C8: neither `perform` nor `reset_actions` modifies the local builder
state, whether the transport succeeds or fails: the builder coming out of
either call is the builder that went in, timelines included. -/
theorem c8_terminal_ops_leave_builder_unchanged (t : Transport) (c : ActionChain)
    (trace : List Command) :
    (c.perform t trace).1 = c ∧ (c.reset_actions t trace).1 = c := by
  constructor
  · cases h : t.respond (Command.performActions c.serialize) <;>
      simp [ActionChain.perform, SessionHandle.cmd, h]
  · cases h : t.respond Command.releaseActions <;>
      simp [ActionChain.reset_actions, SessionHandle.cmd, h]

/-- C9: for every builder state, `reset_actions` sends exactly one
release-actions command, and the command sent and the result returned do
not depend on the contents of the timelines. -/
theorem c9_reset_sends_one_state_independent_command (t : Transport) (c d : ActionChain)
    (trace : List Command) :
    (c.reset_actions t trace).2.2 = trace ++ [Command.releaseActions] ∧
    (c.reset_actions t trace).2 = (d.reset_actions t trace).2 := by
  refine ⟨reset_trace c t trace, ?_⟩
  cases h : t.respond Command.releaseActions <;>
    simp [ActionChain.reset_actions, SessionHandle.cmd, h]

/-- C10: `drag_and_drop_by_offset` and `drag_and_drop_element_by_offset`
never append a pointer release: they end with the primary button still held,
appending only a press and a move (plus, for the element variant, the
preceding move to the element center). -/
theorem c10_drag_and_drop_offsets_never_release (c : ActionChain) (e : WebElement) (x y : Int) :
    (c.drag_and_drop_by_offset x y).pointer_actions.actions =
      c.pointer_actions.actions ++
        [PointerAction.pointerDown MouseButton.left,
         PointerAction.pointerMove (MoveTarget.offset x y) c.pointer_actions.delay] ∧
    (c.drag_and_drop_element_by_offset e x y).pointer_actions.actions =
      c.pointer_actions.actions ++
        [PointerAction.pointerMove (MoveTarget.element e.element_id 0 0) c.pointer_actions.delay,
         PointerAction.pointerDown MouseButton.left,
         PointerAction.pointerMove (MoveTarget.offset x y) c.pointer_actions.delay] ∧
    List.countP (fun a => PointerAction.isUp a)
        (c.drag_and_drop_by_offset x y).pointer_actions.actions =
      List.countP (fun a => PointerAction.isUp a) c.pointer_actions.actions ∧
    List.countP (fun a => PointerAction.isUp a)
        (c.drag_and_drop_element_by_offset e x y).pointer_actions.actions =
      List.countP (fun a => PointerAction.isUp a) c.pointer_actions.actions := by
  simp [ActionChain.drag_and_drop_by_offset, ActionChain.drag_and_drop_element_by_offset,
    ActionChain.click_and_hold, ActionChain.click_and_hold_element,
    ActionChain.move_by_offset, ActionChain.move_to_element_center,
    ActionSourcePointer.click_and_hold, ActionSourcePointer.move_by,
    ActionSourcePointer.move_to_element_center, ActionSourceKey.pause,
    List.countP_append, List.countP_cons, PointerAction.isUp]
